import Mathlib

/-!
Verification of the pyapp.aiobotocore DynamoDB object-mapping layer.

This file shallowly embeds the code under `pyapp_ext/aiobotocore/dynamodb/`
(`base.py`, `attributes.py`, `utils.py`, `session.py`, `exceptions.py`,
`constants.py`) and proves or refutes the frozen claims about it.

Conventions of the embedding:
* Python values are modelled by the inductive `PyVal`; Python dicts by
  insertion-ordered association lists (the code never creates duplicate keys).
* `async def` functions are modelled as direct computations (the code has no
  real concurrency; every awaited call is embedded as a plain call).
* Fallible code returns `Except PyErr`; raising an exception is `.error`.
* The remote transport (the aiobotocore client) is opaque per the spec; it is
  modelled as a record of state-passing functions (`Client`).
-/

/-- Python-ish values manipulated by the attribute layer.  `bytes` is a list
of byte values, `set` an insertion-ordered model of a Python set, `dict` an
insertion-ordered association map. -/
inductive PyVal where
  | none
  | bool (b : Bool)
  | int (n : Int)
  | str (s : String)
  | bytes (bs : List Nat)
  | list (xs : List PyVal)
  | set (xs : List PyVal)
  | dict (entries : List (String × PyVal))

/-- The payload carried by `ValidationError` (exceptions.py:29-49): a plain
message list, a mapping keyed by field name, or a mapping keyed by list
index. -/
inductive ErrMessages where
  | flat (ms : List String)
  | byName (m : List (String × ErrMessages))
  | byIndex (m : List (Nat × ErrMessages))

/-- The exceptions the embedded code can raise.  The `DynamoDBError`
hierarchy is from exceptions.py; `runtimeWarning` is the bare
`RuntimeWarning()` raised by `from_dynamo` on a missing tag;
`valueError`, `typeError`, `keyError` and `attributeError` are the Python
built-ins; `clientError code` is a re-raised botocore `ClientError`.
`sessionClosed` is modelled from the spec: the spec names a `SessionClosed`
error (spec section 7) but the source defines no such exception and never
raises one; the constructor exists only so claims naming it are statable. -/
inductive PyErr where
  | validationError (messages : ErrMessages)
  | notATable
  | invalidKey
  | multipleKeys
  | tableNotFound
  | runtimeWarning
  | valueError
  | typeError
  | keyError
  | attributeError
  | clientError (code : String)
  | sessionClosed

mutual

/-- Structural equality on `PyVal`, the model of Python `==` / `!=` as used
by `Attribute.__set__` (base.py:60-69).  (Python's cross-type numeric
equalities such as `1 == True` are not exercised by any claim.) -/
def pyEq : PyVal → PyVal → Bool
  | .none, .none => true
  | .bool a, .bool b => a == b
  | .int a, .int b => a == b
  | .str a, .str b => a == b
  | .bytes a, .bytes b => a == b
  | .list as, .list bs => pyEqList as bs
  | .set as, .set bs => pyEqList as bs
  | .dict as, .dict bs => pyEqDict as bs
  | _, _ => false

/-- Elementwise `pyEq` on lists. -/
def pyEqList : List PyVal → List PyVal → Bool
  | [], [] => true
  | a :: as, b :: bs => pyEq a b && pyEqList as bs
  | _, _ => false

/-- Entrywise `pyEq` on dict entry lists. -/
def pyEqDict : List (String × PyVal) → List (String × PyVal) → Bool
  | [], [] => true
  | (k, a) :: as, (k2, b) :: bs => k == k2 && pyEq a b && pyEqDict as bs
  | _, _ => false

end

/-- Association-list lookup, the model of Python dict access (first match;
the embedded code never builds duplicate keys). -/
def assocLookup {κ α : Type} [DecidableEq κ] : List (κ × α) → κ → Option α
  | [], _ => Option.none
  | (k, v) :: rest, key => if k = key then some v else assocLookup rest key

/-- Python dict item assignment: overwrite the existing entry in place when
the key exists, append otherwise (insertion order is preserved, as in
CPython). -/
def assocSet {α : Type} : List (String × α) → String → α → List (String × α)
  | [], k, v => [(k, v)]
  | (k0, v0) :: rest, k, v =>
      if k0 = k then (k, v) :: rest else (k0, v0) :: assocSet rest k v

theorem assocLookup_append_of_none {κ α : Type} [DecidableEq κ]
    (l : List (κ × α)) (k : κ) (v : α) (h : assocLookup l k = Option.none) :
    assocLookup (l ++ [(k, v)]) k = some v := by
  induction l with
  | nil => simp [assocLookup]
  | cons p rest ih =>
      obtain ⟨k0, v0⟩ := p
      simp only [assocLookup] at h
      by_cases hk : k0 = k
      · rw [if_pos hk] at h
        exact Option.noConfusion h
      · rw [if_neg hk] at h
        simp only [List.cons_append, assocLookup]
        rw [if_neg hk]
        exact ih h

theorem assocLookup_assocSet_ne {α : Type} (d : List (String × α))
    (k k' : String) (v : α) (h : k ≠ k') :
    assocLookup (assocSet d k v) k' = assocLookup d k' := by
  induction d with
  | nil =>
      simp only [assocSet, assocLookup]
      rw [if_neg h]
  | cons p rest ih =>
      obtain ⟨k0, v0⟩ := p
      simp only [assocSet]
      by_cases hk : k0 = k
      · rw [if_pos hk]
        simp only [assocLookup]
        rw [if_neg h, if_neg (by rw [hk]; exact h)]
      · rw [if_neg hk]
        simp only [assocLookup]
        by_cases hk' : k0 = k'
        · rw [if_pos hk', if_pos hk']
        · rw [if_neg hk', if_neg hk']
          exact ih

/-- Digit value to its decimal character: codepoint 48 + d for d below 10. -/
def digitToChar (d : Nat) : Char :=
  Char.ofNat (48 + d)

/-- Decimal character to its digit value, if any (codepoints 48 to 57). -/
def charToDigit (c : Char) : Option Nat :=
  if 48 ≤ c.toNat ∧ c.toNat ≤ 57 then some (c.toNat - 48) else Option.none

/-- Decimal digits of a natural number, least significant first. -/
def natDigitsRev (n : Nat) : List Nat :=
  if h : n < 10 then [n]
  else n % 10 :: natDigitsRev (n / 10)
decreasing_by
  exact Nat.div_lt_self (by omega) (by omega)

/-- Decimal rendering of a natural number, the model of Python str on a
non-negative int. -/
def natToStr (n : Nat) : String :=
  String.mk (((natDigitsRev n).reverse).map digitToChar)

/-- Decimal rendering of an integer, the model of Python str on an int. -/
def intToStr (i : Int) : String :=
  if i < 0 then "-" ++ natToStr (-i).toNat else natToStr i.toNat

/-- Accumulating decimal parse over characters; fails on a non-digit. -/
def parseDigitsAux : Nat → List Char → Option Nat
  | acc, [] => some acc
  | acc, c :: cs =>
      match charToDigit c with
      | some d => parseDigitsAux (acc * 10 + d) cs
      | Option.none => Option.none

/-- Parse helper over the character list of a string. -/
def pyIntOfChars : List Char → Option Int
  | [] => Option.none
  | c :: cs =>
      if c = '-' then
        if cs.isEmpty then Option.none
        else (parseDigitsAux 0 cs).map (fun n : Nat => -(n : Int))
      else (parseDigitsAux 0 (c :: cs)).map (fun n : Nat => (n : Int))

/-- The model of Python int applied to a string: an optional minus sign
followed by at least one decimal digit (whitespace, plus signs and
underscore separators are not modelled; no claim exercises them). -/
def pyIntOfStr (s : String) : Option Int :=
  pyIntOfChars s.toList

theorem charToDigit_digitToChar (d : Nat) (h : d < 10) :
    charToDigit (digitToChar d) = some d := by
  interval_cases d <;> decide

theorem natDigitsRev_lt (n : Nat) : ∀ d ∈ natDigitsRev n, d < 10 := by
  induction n using Nat.strong_induction_on with
  | _ n ih =>
      intro d hd
      rw [natDigitsRev] at hd
      by_cases h : n < 10
      · simp [h] at hd
        omega
      · simp [h] at hd
        rcases hd with hd | hd
        · omega
        · exact ih (n / 10) (Nat.div_lt_self (by omega) (by omega)) d hd

theorem natDigitsRev_ne_nil (n : Nat) : natDigitsRev n ≠ [] := by
  rw [natDigitsRev]
  by_cases h : n < 10 <;> simp [h]

theorem parseDigitsAux_digits (ds : List Nat) (hds : ∀ d ∈ ds, d < 10) :
    ∀ acc, parseDigitsAux acc (ds.map digitToChar) =
      some (ds.foldl (fun a d => a * 10 + d) acc) := by
  induction ds with
  | nil => intro acc; rfl
  | cons d rest ih =>
      intro acc
      have hd : d < 10 := hds d (by simp)
      simp only [List.map_cons, parseDigitsAux, charToDigit_digitToChar d hd]
      simp only [List.foldl_cons]
      exact ih (fun x hx => hds x (by simp [hx])) (acc * 10 + d)

theorem foldl_natDigitsRev (n : Nat) : ∀ acc,
    ((natDigitsRev n).reverse).foldl (fun a d => a * 10 + d) acc =
      acc * 10 ^ (natDigitsRev n).length + n := by
  induction n using Nat.strong_induction_on with
  | _ n ih =>
      intro acc
      rw [natDigitsRev]
      by_cases h : n < 10
      · simp [h]
      · have hrec := ih (n / 10) (Nat.div_lt_self (by omega) (by omega))
        simp only [h, dif_neg, not_false_iff, List.reverse_cons, List.foldl_append,
          List.foldl_cons, List.foldl_nil, List.length_cons]
        rw [hrec acc]
        rw [pow_succ]
        have : n = 10 * (n / 10) + n % 10 := (Nat.div_add_mod n 10).symm
        ring_nf
        omega

theorem parse_natToStr (n : Nat) :
    parseDigitsAux 0 (natToStr n).toList = some n := by
  have h1 : (natToStr n).toList = ((natDigitsRev n).reverse).map digitToChar := rfl
  rw [h1]
  rw [parseDigitsAux_digits ((natDigitsRev n).reverse)
    (fun d hd => natDigitsRev_lt n d (List.mem_reverse.mp hd)) 0]
  rw [foldl_natDigitsRev n 0]
  simp

theorem digitToChar_ne_minus (d : Nat) (h : d < 10) :
    digitToChar d ≠ '-' := by
  interval_cases d <;> decide

theorem natToStr_toList (n : Nat) :
    (natToStr n).toList = ((natDigitsRev n).reverse).map digitToChar := rfl

theorem natToStr_toList_ne_nil (n : Nat) : (natToStr n).toList ≠ [] := by
  rw [natToStr_toList]
  intro h
  have := List.map_eq_nil_iff.mp h
  exact natDigitsRev_ne_nil n (by simpa using congrArg List.reverse this)

theorem pyIntOfStr_natToStr (n : Nat) :
    pyIntOfStr (natToStr n) = some (n : Int) := by
  obtain ⟨d0, rest, hds⟩ : ∃ d0 rest,
      (natDigitsRev n).reverse = d0 :: rest := by
    cases hd : (natDigitsRev n).reverse with
    | nil =>
        exact absurd (by simpa using congrArg List.reverse hd)
          (natDigitsRev_ne_nil n)
    | cons a l => exact ⟨a, l, rfl⟩
  have hd0 : d0 < 10 :=
    natDigitsRev_lt n d0
      (List.mem_reverse.mp (hds ▸ List.mem_cons_self d0 rest))
  have htl : (natToStr n).toList = digitToChar d0 :: rest.map digitToChar := by
    rw [natToStr_toList, hds, List.map_cons]
  rw [pyIntOfStr, htl]
  simp only [pyIntOfChars]
  rw [if_neg (digitToChar_ne_minus d0 hd0)]
  have hparse : parseDigitsAux 0 (digitToChar d0 :: rest.map digitToChar)
      = some n := by
    rw [← List.map_cons, ← hds, ← natToStr_toList]
    exact parse_natToStr n
  rw [hparse]
  rfl

theorem pyIntOfStr_intToStr (i : Int) : pyIntOfStr (intToStr i) = some i := by
  by_cases hneg : i < 0
  · have hm : intToStr i = "-" ++ natToStr (-i).toNat := by
      rw [intToStr, if_pos hneg]
    have htl : (intToStr i).toList = '-' :: (natToStr (-i).toNat).toList := by
      rw [hm]
      show ("-" ++ natToStr (-i).toNat).data = '-' :: (natToStr (-i).toNat).data
      rw [String.data_append]
      rfl
    rw [pyIntOfStr, htl]
    simp only [pyIntOfChars, if_true]
    rw [if_neg (by
      intro h
      exact natToStr_toList_ne_nil (-i).toNat (List.isEmpty_iff.mp h))]
    have : parseDigitsAux 0 (natToStr (-i).toNat).toList = some (-i).toNat :=
      parse_natToStr (-i).toNat
    rw [this]
    show some (-(((-i).toNat : Nat) : Int)) = some i
    congr 1
    omega
  · have hm : intToStr i = natToStr i.toNat := by
      rw [intToStr, if_neg hneg]
    rw [hm, pyIntOfStr_natToStr]
    congr 1
    omega

/-- Hex digit character (lowercase), as produced by Python bytes.hex(). -/
def hexDigit (n : Nat) : Char :=
  if n < 10 then digitToChar n
  else if n = 10 then 'a'
  else if n = 11 then 'b'
  else if n = 12 then 'c'
  else if n = 13 then 'd'
  else if n = 14 then 'e'
  else 'f'

/-- The model of Python bytes.hex(): two lowercase hex digits per byte
(attributes.py:46-47, BinaryAttribute.prepare). -/
def bytesHex (bs : List Nat) : String :=
  String.mk (bs.flatMap (fun b => [hexDigit (b / 16 % 16), hexDigit (b % 16)]))

/-- The model of the Python str() builtin on the values the attribute layer
passes to it.  Scalars are rendered exactly; the renderings of container and
bytes values are abbreviated (no claim observes them). -/
def pyStr : PyVal → String
  | PyVal.none => "None"
  | PyVal.bool b => if b then "True" else "False"
  | PyVal.int n => intToStr n
  | PyVal.str s => s
  | PyVal.bytes bs => bytesHex bs
  | PyVal.list _ => "[...]"
  | PyVal.set _ => "set(...)"
  | PyVal.dict _ => "dict(...)"

/-- The attribute classes of attributes.py that the claims exercise, one
constructor per class.  `listA e` is ListAttribute wrapping the containing
attribute `e`.  (FloatAttribute, DateTimeAttribute, UUIDAttribute and
URLAttribute delegate to IEEE-float / datetime / uuid / yarl library
formatting that this embedding does not model; FloatSetAttribute likewise.) -/
inductive AttrKind where
  | stringA
  | binaryA
  | integerA
  | booleanA
  | stringSetA
  | binarySetA
  | integerSetA
  | listA (elem : AttrKind)
deriving DecidableEq, Repr

/-- The wire tag of each attribute class (its dynamo_type value from
constants.py DataType). -/
def tag : AttrKind → String
  | .stringA => "S"
  | .binaryA => "B"
  | .integerA => "N"
  | .booleanA => "BOOL"
  | .stringSetA => "SS"
  | .binarySetA => "BS"
  | .integerSetA => "NS"
  | .listA _ => "L"

/-- Per-class prepare (attributes.py).  String and Integer render with str();
Binary hex-encodes; Boolean inherits the base identity prepare
(base.py:143-147); the set classes map the scalar prepare over their
elements and return a list; ListAttribute maps the containing attribute's
prepare.  prepare is only ever applied to a non-None value of the class's
python_type; on other inputs (where Python would raise) this model returns
the value unchanged. -/
def kindPrepare : AttrKind → PyVal → PyVal
  | .stringA, v => PyVal.str (pyStr v)
  | .binaryA, PyVal.bytes bs => PyVal.str (bytesHex bs)
  | .binaryA, v => v
  | .integerA, v => PyVal.str (pyStr v)
  | .booleanA, v => v
  | .stringSetA, PyVal.set xs => PyVal.list (xs.map (fun x => PyVal.str (pyStr x)))
  | .stringSetA, v => v
  | .binarySetA, PyVal.set xs =>
      PyVal.list (xs.map (fun x =>
        match x with
        | PyVal.bytes bs => PyVal.str (bytesHex bs)
        | x => x))
  | .binarySetA, v => v
  | .integerSetA, PyVal.set xs => PyVal.list (xs.map (fun x => PyVal.str (pyStr x)))
  | .integerSetA, v => v
  | .listA e, PyVal.list xs => PyVal.list (xs.map (kindPrepare e))
  | .listA _, v => v

/-- utils.clean (utils.py:28-46) applied to a plain value, as
ListAttribute.clean_value does to each list element (attributes.py:285).
utils.clean first calls get_attributes, which raises NotATable for any
object without an attribute registry (utils.py:8-15); plain values
(strings, ints, lists, ...) have none, so the call raises NotATable. -/
def cleanPlain (_ : PyVal) : Except PyErr Unit :=
  .error PyErr.notATable

/-- The element loop of ListAttribute.clean_value (attributes.py:282-287):
each element is passed to utils.clean; a ValidationError is recorded under
the element's index; any other exception propagates. -/
def listCleanLoop : List PyVal → Nat → List (Nat × ErrMessages) →
    Except PyErr (List (Nat × ErrMessages))
  | [], _, errs => .ok errs
  | x :: xs, idx, errs =>
      match cleanPlain x with
      | .ok _ => listCleanLoop xs (idx + 1) errs
      | .error (PyErr.validationError m) =>
          listCleanLoop xs (idx + 1) (errs ++ [(idx, m)])
      | .error e => .error e

/-- Per-class clean_value (attributes.py; base.py:107-110 for the inherited
stub).  BinaryAttribute defines no clean_value, so it inherits the base
Attribute.clean_value whose body is empty and therefore returns None.
IntegerAttribute accepts bools because Python bool is a subclass of int.
The set classes return an empty set for None and reject any non-set input.
ListAttribute runs utils.clean over the elements, aggregating
ValidationErrors by index. -/
def kindCleanValue : AttrKind → PyVal → Except PyErr PyVal
  | .stringA, PyVal.none => .ok PyVal.none
  | .stringA, PyVal.str s => .ok (PyVal.str s)
  | .stringA, v => .ok (PyVal.str (pyStr v))
  | .binaryA, _ => .ok PyVal.none
  | .integerA, PyVal.none => .ok PyVal.none
  | .integerA, PyVal.int n => .ok (PyVal.int n)
  | .integerA, PyVal.bool b => .ok (PyVal.bool b)
  | .integerA, PyVal.str s =>
      match pyIntOfStr s with
      | some n => .ok (PyVal.int n)
      | Option.none => .error (.validationError (.flat ["Invalid integer"]))
  | .integerA, _ => .error (.validationError (.flat ["Invalid integer"]))
  | .booleanA, PyVal.none => .ok PyVal.none
  | .booleanA, PyVal.bool b => .ok (PyVal.bool b)
  | .booleanA, PyVal.int n =>
      if n = 0 then .ok (PyVal.bool false)
      else if n = 1 then .ok (PyVal.bool true)
      else .error (.validationError (.flat ["Invalid bool"]))
  | .booleanA, _ => .error (.validationError (.flat ["Invalid bool"]))
  | .stringSetA, PyVal.none => .ok (PyVal.set [])
  | .stringSetA, PyVal.set xs => .ok (PyVal.set xs)
  | .stringSetA, _ => .error (.validationError (.flat ["Not a set"]))
  | .binarySetA, PyVal.none => .ok (PyVal.set [])
  | .binarySetA, PyVal.set xs => .ok (PyVal.set xs)
  | .binarySetA, _ => .error (.validationError (.flat ["Not a set"]))
  | .integerSetA, PyVal.none => .ok (PyVal.set [])
  | .integerSetA, PyVal.set xs => .ok (PyVal.set xs)
  | .integerSetA, _ => .error (.validationError (.flat ["Not a set"]))
  | .listA _, PyVal.none => .ok (PyVal.list [])
  | .listA _, PyVal.list xs =>
      (match listCleanLoop xs 0 [] with
       | .error e => .error e
       | .ok [] => .ok (PyVal.list xs)
       | .ok errs => .error (.validationError (.byIndex errs)))
  | .listA _, _ => .error (.validationError (.flat ["Not a list"]))

/-- Attribute.to_dynamo (base.py:149-156): None becomes the NULL tag,
anything else is tagged with the class's dynamo_type over prepare. -/
def toDynamo (k : AttrKind) (v : PyVal) : List (String × PyVal) :=
  match v with
  | PyVal.none => [("NULL", PyVal.bool true)]
  | v => [(tag k, kindPrepare k v)]

/-- The element pass of ListAttribute.from_dynamo (attributes.py:306-307):
each wire element is fed to clean_value (modelling the awaited call); the
results are discarded and the function falls off the end, returning None. -/
def fromDynamoListPass (k : AttrKind) : List PyVal → Except PyErr PyVal
  | [] => .ok PyVal.none
  | v :: vs =>
      match kindCleanValue k v with
      | .ok _ => fromDynamoListPass k vs
      | .error e => .error e

/-- Attribute.from_dynamo (base.py:158-170) with the ListAttribute override
(attributes.py:294-307).  Both first return None if the NULL tag is present;
both raise a bare RuntimeWarning if the class's tag is absent; the base
implementation then returns clean_value applied to the tagged value, while
the ListAttribute override iterates clean_value over the elements and
returns None. -/
def fromDynamo (k : AttrKind) (item : List (String × PyVal)) :
    Except PyErr PyVal :=
  match k with
  | .listA e =>
      if (item.map Prod.fst).contains "NULL" then .ok PyVal.none
      else
        match assocLookup item "L" with
        | Option.none => .error PyErr.runtimeWarning
        | some (PyVal.list vs) => fromDynamoListPass (AttrKind.listA e) vs
        | some _ => .error PyErr.typeError
  | k =>
      if (item.map Prod.fst).contains "NULL" then .ok PyVal.none
      else
        match assocLookup item (tag k) with
        | Option.none => .error PyErr.runtimeWarning
        | some v => kindCleanValue k v

/-- Key roles (constants.py KeyType). -/
inductive KeyType where
  | hash
  | range
deriving DecidableEq, Repr

/-- The wire value of a key role. -/
def keyTypeStr : KeyType → String
  | .hash => "HASH"
  | .range => "RANGE"

/-- A bound attribute descriptor: the state of a base.py Attribute after
__init__ and __set_name__ have run.  `name` is the wire-level name, kept in
sync by set_attrs_from_name; `attr_name` is the binding name used to read
and write record fields.  A validator models a base.py validator callable:
`some ms` is a raised ValidationError with flat messages ms, `none` is
success (base.py:119-130 reads `.messages` off the caught error, so only
flat-message validator failures are representable). -/
structure Attr where
  name : String
  attr_name : String
  null : Bool := false
  key_type : Option KeyType := Option.none
  default_factory : Option (Unit → PyVal) := Option.none
  validators : List (PyVal → Option (List String)) := []
  kind : AttrKind

/-- The default / default_factory resolution of Attribute.__init__
(base.py:40-48).  `Option.none` models the NoDefault sentinel.  A plain
default d becomes a factory returning d; specifying both raises
ValueError. -/
def resolveDefault (default : Option PyVal)
    (default_factory : Option (Unit → PyVal)) :
    Except PyErr (Option (Unit → PyVal)) :=
  match default, default_factory with
  | Option.none, Option.none => .ok Option.none
  | Option.none, some f => .ok (some f)
  | some d, Option.none => .ok (some (fun _ => d))
  | some _, some _ => .error PyErr.valueError

/-- The IndexDataTypes check of Attribute.__init__ (base.py:35-38): a key
attribute must serialize to N, S or B. -/
def checkIndexable (key_type : Option KeyType) (k : AttrKind) :
    Except PyErr Unit :=
  if key_type.isSome ∧ ¬ (tag k = "N" ∨ tag k = "S" ∨ tag k = "B") then
    .error PyErr.invalidKey
  else .ok ()

/-- A record instance: its __dict__ (field values keyed by binding name) and
its __updated__ change-tracking set. -/
structure RecordObj where
  fields : List (String × PyVal)
  updated : List String

/-- Attribute.__get__ on an instance (base.py:50-58): the instance __dict__
is tried first; on KeyError the default factory is called if configured;
otherwise the function falls off the end and returns None.  The KeyError is
always caught, so reading an unassigned field never raises. -/
def attrGet (a : Attr) (obj : RecordObj) : PyVal :=
  match assocLookup obj.fields a.attr_name with
  | some v => v
  | Option.none =>
      match a.default_factory with
      | some f => f ()
      | Option.none => PyVal.none

/-- Attribute.__set__ (base.py:60-69): the value is stored (and the field
recorded in __updated__) only when it differs from the current value, where
a missing field reads as None. -/
def attrSet (a : Attr) (obj : RecordObj) (value : PyVal) : RecordObj :=
  let old := (assocLookup obj.fields a.attr_name).getD PyVal.none
  if pyEq old value then obj
  else
    { fields := assocSet obj.fields a.attr_name value,
      updated :=
        if obj.updated.contains a.attr_name then obj.updated
        else obj.updated ++ [a.attr_name] }

/-- Attribute.validate (base.py:112-117): a non-nullable attribute rejects
None. -/
def attrValidate (a : Attr) (v : PyVal) : Except PyErr Unit :=
  match v with
  | PyVal.none =>
      if a.null then .ok ()
      else .error (.validationError (.flat ["A value is required."]))
  | _ => .ok ()

/-- Attribute.run_validators (base.py:119-130): every validator runs; their
failure messages are accumulated and raised together. -/
def runValidators (a : Attr) (v : PyVal) : Except PyErr Unit :=
  let errors := (a.validators.map (fun f => (f v).getD [])).flatten
  if errors.isEmpty then .ok ()
  else .error (.validationError (.flat errors))

/-- Attribute.clean (base.py:132-141): clean_value, then validate, then
run_validators; the first failing stage propagates. -/
def attrClean (a : Attr) (v : PyVal) : Except PyErr PyVal := do
  let v ← kindCleanValue a.kind v
  attrValidate a v
  runValidators a v
  return v

/-- The attribute loop of utils.clean (utils.py:36-43): read each field via
the attribute, clean it, write back on success, record the error_messages of
a ValidationError under the binding name on failure; any non-ValidationError
propagates. -/
def cleanRecordLoop : List Attr → RecordObj → List (String × ErrMessages) →
    Except PyErr (RecordObj × List (String × ErrMessages))
  | [], obj, errs => .ok (obj, errs)
  | a :: rest, obj, errs =>
      match attrClean a (attrGet a obj) with
      | .ok v => cleanRecordLoop rest (attrSet a obj v) errs
      | .error (PyErr.validationError m) =>
          cleanRecordLoop rest obj (errs ++ [(a.attr_name, m)])
      | .error e => .error e

/-- utils.clean (utils.py:28-46): run the loop over every attribute; if any
errors were recorded, raise one aggregate ValidationError keyed by binding
name, else succeed with the (possibly updated) record. -/
def cleanRecord (attrs : List Attr) (obj : RecordObj) :
    Except PyErr RecordObj :=
  match cleanRecordLoop attrs obj [] with
  | .ok (obj2, []) => .ok obj2
  | .ok (_, errs) => .error (.validationError (.byName errs))
  | .error e => .error e

/-- The per-attribute outcomes of a cleaning pass read against the original
record: the binding names and messages of exactly the attributes whose clean
fails with a ValidationError, in declaration order. -/
def recordErrors (attrs : List Attr) (obj : RecordObj) :
    List (String × ErrMessages) :=
  attrs.filterMap (fun a =>
    match attrClean a (attrGet a obj) with
    | .error (PyErr.validationError m) => some (a.attr_name, m)
    | _ => Option.none)

/-- True when a clean outcome is a success or a ValidationError (the two
outcomes utils.clean handles in its loop). -/
def softOutcome : Except PyErr PyVal → Bool
  | .ok _ => true
  | .error (PyErr.validationError _) => true
  | .error _ => false

/-- An attribute as constructed by Attribute.__init__, before __set_name__
binds it (base.py:18-48): the wire name may still be unset and no binding
name exists yet. -/
structure AttrCfg where
  name : Option String := Option.none
  null : Bool := false
  key_type : Option KeyType := Option.none
  default_factory : Option (Unit → PyVal) := Option.none
  validators : List (PyVal → Option (List String)) := []
  kind : AttrKind

/-- A record class as assembled by TableMeta and __set_name__: the table
name, the ordered attribute registry (__attributes__) and the key registry
(__table_keys__).  (TableMeta stores the table name under __tablename__
while session.py reads __table_name__; this embedding exposes the single
name the session operations consume.) -/
structure TableCls where
  table_name : String
  attributes : List Attr
  table_keys : List (KeyType × Attr)

/-- set_attrs_from_name (base.py:85-90) followed by the rest of
Attribute.__set_name__ (base.py:71-83): bind the field name, append to the
attribute registry, and for a key attribute insert into the key registry,
raising MultipleKeys if the role is already claimed. -/
def setName (cls : TableCls) (fieldName : String) (cfg : AttrCfg) :
    Except PyErr TableCls :=
  let bound : Attr :=
    { name := cfg.name.getD fieldName, attr_name := fieldName,
      null := cfg.null, key_type := cfg.key_type,
      default_factory := cfg.default_factory,
      validators := cfg.validators, kind := cfg.kind }
  let cls1 : TableCls := { cls with attributes := cls.attributes ++ [bound] }
  match cfg.key_type with
  | Option.none => .ok cls1
  | some k =>
      if (cls1.table_keys.map Prod.fst).contains k then
        .error PyErr.multipleKeys
      else .ok { cls1 with table_keys := cls1.table_keys ++ [(k, bound)] }

/-- Registration of the declared fields of a record type, in source order:
__set_name__ runs once per declared attribute at class-definition time. -/
def registerAttrs : TableCls → List (String × AttrCfg) → Except PyErr TableCls
  | cls, [] => .ok cls
  | cls, (fname, cfg) :: rest =>
      match setName cls fname cfg with
      | .ok cls1 => registerAttrs cls1 rest
      | .error e => .error e

/-- Definition of a record type (TableMeta.__new__, base.py:235-242, then
the __set_name__ pass): the table name defaults to the class name; the
attribute and key registries start empty.  This runs when the class is
defined, before any record instance exists. -/
def defineTable (class_name : String) (name : Option String)
    (decls : List (String × AttrCfg)) : Except PyErr TableCls :=
  registerAttrs
    { table_name := name.getD class_name, attributes := [], table_keys := [] }
    decls

/-- A transport response: a structured result or a botocore ClientError
carrying a machine-readable error code (spec section 6). -/
inductive TransportResult (α : Type) where
  | ok (response : α)
  | clientError (code : String)

/-- The arguments of a create_table transport request, as assembled by
Session.create_table (session.py:134-149). -/
structure CreateArgs where
  attributeDefinitions : List (List (String × String))
  tableName : String
  keySchema : List (List (String × String))
  billingMode : String
  provisionedThroughput : Option (Int × Int)

/-- A table description as returned by the transport (the Table /
TableDescription member of a describe_table / create_table response).  The
remote stores the creation arguments. -/
abbrev TableDesc : Type := CreateArgs

/-- The opaque transport consumed by the Session (spec section 6): one
state-passing function per request verb.  `sigma` is the transport's
internal state. -/
structure Client (sigma : Type) where
  state : sigma
  describeTableRaw : sigma → String → sigma × TransportResult TableDesc
  createTableRaw : sigma → CreateArgs → sigma × TransportResult TableDesc
  putItemRaw : sigma → String → List (String × PyVal) →
    sigma × TransportResult Unit
  deleteItemRaw : sigma → String → List (String × PyVal) →
    sigma × TransportResult Unit
  scanRaw : sigma → String → List (String × PyVal) →
    sigma × TransportResult (List (List (String × PyVal)) × Int)

/-- A Session (session.py:78-102): it holds the client, or nothing once
close() has released it (close sets self.client = None).  Accessing an
operation on the released client raises AttributeError in Python; the
embedded operations return that error when `client` is none. -/
structure Session (sigma : Type) where
  client : Option (Client sigma)

/-- Session.close (session.py:96-102): release the client if one is held;
a second close finds client already None and does nothing. -/
def sessionClose {sigma : Type} (s : Session sigma) : Session sigma :=
  match s.client with
  | some _ => { client := Option.none }
  | Option.none => s

/-- Session.describe_table (session.py:104-114).  A ClientError with code
ResourceNotFoundException becomes TableNotFound.  For any other code the
except block body does nothing and the exception is swallowed: the try has
no other exit, so the function falls off the end and returns None (the
else clause that returns the Table member only runs when no exception was
raised).  There is no else: raise in this except block, unlike every other
handler in session.py. -/
def sessionDescribeTable {sigma : Type} (s : Session sigma)
    (table_name : String) :
    Session sigma × Except PyErr (Option TableDesc) :=
  match s.client with
  | Option.none => (s, .error PyErr.attributeError)
  | some c =>
      let (st, r) := c.describeTableRaw c.state table_name
      let s1 : Session sigma := { client := some { c with state := st } }
      match r with
      | .ok resp => (s1, .ok (some resp))
      | .clientError code =>
          if code = "ResourceNotFoundException" then
            (s1, .error PyErr.tableNotFound)
          else (s1, .ok Option.none)

/-- Attribute.attribute_def (base.py:100-105). -/
def attributeDef (a : Attr) : List (String × String) :=
  [("AttributeName", a.name), ("AttributeType", tag a.kind)]

/-- Attribute.key_schema (base.py:92-98): None for a non-key attribute. -/
def keySchemaOf (a : Attr) : Option (List (String × String)) :=
  match a.key_type with
  | some kt => some [("AttributeName", a.name), ("KeyType", keyTypeStr kt)]
  | Option.none => Option.none

/-- The kwargs assembled by Session.create_table (session.py:132-149): the
attribute-definition and key-schema lists over the key attributes, and the
billing mode (pay-per-request without provisioned throughput, provisioned
with explicit read and write capacity otherwise). -/
def buildCreateArgs (tbl : TableCls) (provisioned : Option (Int × Int)) :
    CreateArgs :=
  { attributeDefinitions :=
      (tbl.attributes.filter (fun a => a.key_type.isSome)).map attributeDef,
    tableName := tbl.table_name,
    keySchema := tbl.attributes.filterMap keySchemaOf,
    billingMode :=
      match provisioned with
      | Option.none => "PAY_PER_REQUEST"
      | some _ => "PROVISIONED",
    provisionedThroughput := provisioned }

/-- Session.create_table (session.py:116-156).  With check_exists the
existing description is returned when describe_table finds the table;
TableNotFound from that probe is swallowed and the create proceeds.  The
create request's ClientError is re-raised unmodified (the handler is
`except ClientError: raise`). -/
def sessionCreateTable {sigma : Type} (s : Session sigma) (tbl : TableCls)
    (provisioned : Option (Int × Int)) (check_exists : Bool) :
    Session sigma × Except PyErr (Option TableDesc) :=
  let afterCheck : Session sigma × Option (Except PyErr (Option TableDesc)) :=
    if check_exists then
      let (s1, r) := sessionDescribeTable s tbl.table_name
      match r with
      | .ok d => (s1, some (.ok d))
      | .error PyErr.tableNotFound => (s1, Option.none)
      | .error e => (s1, some (.error e))
    else (s, Option.none)
  match afterCheck with
  | (s1, some result) => (s1, result)
  | (s1, Option.none) =>
      match s1.client with
      | Option.none => (s1, .error PyErr.attributeError)
      | some c =>
          let (st, r) := c.createTableRaw c.state (buildCreateArgs tbl provisioned)
          let s2 : Session sigma := { client := some { c with state := st } }
          match r with
          | .ok resp => (s2, .ok (some resp))
          | .clientError code => (s2, .error (PyErr.clientError code))

/-- utils.to_dynamo (utils.py:59-74) without updates_only: serialize every
attribute's current value under its wire name. -/
def toDynamoRecord (attrs : List Attr) (obj : RecordObj) :
    List (String × PyVal) :=
  attrs.map (fun a => (a.name, PyVal.dict (toDynamo a.kind (attrGet a obj))))

/-- utils.to_dynamo_key (utils.py:49-56): look up the hash-role attribute in
the key registry (a missing role raises KeyError) and return its tagged
wire value. -/
def toDynamoKey (tbl : TableCls) (obj : RecordObj) :
    Except PyErr (List (String × PyVal)) :=
  match assocLookup tbl.table_keys KeyType.hash with
  | Option.none => .error PyErr.keyError
  | some a => .ok (toDynamo a.kind (attrGet a obj))

/-- Session.put_item (session.py:158-176): clean first when requested (a
failure aborts before the transport is touched), then serialize and submit;
a ResourceNotFoundException becomes TableNotFound, every other ClientError
is re-raised. -/
def sessionPutItem {sigma : Type} (s : Session sigma) (tbl : TableCls)
    (obj : RecordObj) (clean : Bool) :
    Session sigma × Except PyErr Unit :=
  match (if clean then cleanRecord tbl.attributes obj else .ok obj) with
  | .error e => (s, .error e)
  | .ok obj2 =>
      let document := toDynamoRecord tbl.attributes obj2
      match s.client with
      | Option.none => (s, .error PyErr.attributeError)
      | some c =>
          let (st, r) := c.putItemRaw c.state tbl.table_name document
          let s1 : Session sigma := { client := some { c with state := st } }
          match r with
          | .ok _ => (s1, .ok ())
          | .clientError code =>
              if code = "ResourceNotFoundException" then
                (s1, .error PyErr.tableNotFound)
              else (s1, .error (PyErr.clientError code))

/-- Session.delete_item (session.py:209-226): derive the wire key, then
submit; a ResourceNotFoundException is passed over (deleting an absent item
succeeds), every other ClientError is re-raised. -/
def sessionDeleteItem {sigma : Type} (s : Session sigma) (tbl : TableCls)
    (obj : RecordObj) :
    Session sigma × Except PyErr Unit :=
  match toDynamoKey tbl obj with
  | .error e => (s, .error e)
  | .ok key =>
      match s.client with
      | Option.none => (s, .error PyErr.attributeError)
      | some c =>
          let (st, r) := c.deleteItemRaw c.state tbl.table_name key
          let s1 : Session sigma := { client := some { c with state := st } }
          match r with
          | .ok _ => (s1, .ok ())
          | .clientError code =>
              if code = "ResourceNotFoundException" then (s1, .ok ())
              else (s1, .error (PyErr.clientError code))

/-- Scan._execute (session.py:50-61): issue the scan over the session's
client with the filter's argument set; ResourceNotFoundException becomes
TableNotFound, every other ClientError is re-raised.  On a closed session
the attribute access self.session.client.scan raises AttributeError. -/
def scanExecute {sigma : Type} (s : Session sigma) (table_name : String)
    (kwargs : List (String × PyVal)) :
    Session sigma × Except PyErr (List (List (String × PyVal)) × Int) :=
  match s.client with
  | Option.none => (s, .error PyErr.attributeError)
  | some c =>
      let (st, r) := c.scanRaw c.state table_name kwargs
      let s1 : Session sigma := { client := some { c with state := st } }
      match r with
      | .ok resp => (s1, .ok resp)
      | .clientError code =>
          if code = "ResourceNotFoundException" then
            (s1, .error PyErr.tableNotFound)
          else (s1, .error (PyErr.clientError code))

/-- A model of the remote store for the table-lifecycle claims: the set of
existing tables with their descriptions, plus a counter of create requests
received. -/
structure Remote where
  tables : List (String × TableDesc)
  createCount : Nat

/-- The remote's describe verb: the description when the table exists, a
ResourceNotFoundException ClientError otherwise. -/
def remoteDescribe (rm : Remote) (name : String) :
    Remote × TransportResult TableDesc :=
  match assocLookup rm.tables name with
  | some d => (rm, .ok d)
  | Option.none => (rm, .clientError "ResourceNotFoundException")

/-- The remote's create verb: every request is counted; creating an
existing table fails with ResourceInUseException, otherwise the table is
recorded and its description returned. -/
def remoteCreate (rm : Remote) (args : CreateArgs) :
    Remote × TransportResult TableDesc :=
  if (rm.tables.map Prod.fst).contains args.tableName then
    ({ rm with createCount := rm.createCount + 1 },
      .clientError "ResourceInUseException")
  else
    ({ tables := rm.tables ++ [(args.tableName, args)],
       createCount := rm.createCount + 1 }, .ok args)

/-- A transport client backed by the remote-store model.  The item verbs
are not exercised by the table-lifecycle claims. -/
def remoteClient (rm : Remote) : Client Remote :=
  { state := rm,
    describeTableRaw := remoteDescribe,
    createTableRaw := remoteCreate,
    putItemRaw := fun st _ _ => (st, .ok ()),
    deleteItemRaw := fun st _ _ => (st, .ok ()),
    scanRaw := fun st _ _ => (st, .ok ([], 0)) }

/-- The create-request count behind a session over the remote model. -/
def sessionCreateCount (s : Session Remote) : Nat :=
  match s.client with
  | some c => c.state.createCount
  | Option.none => 0

/-- A heap of Python dict objects, for the Filter aliasing claims: Filter
methods copy their kwargs dict and mutate only the copy, so the embedding
gives each dict an identity (an index into the heap). -/
structure DictStore where
  dicts : List (List (String × PyVal))

/-- Allocate a fresh dict object. -/
def dictAlloc (st : DictStore) (d : List (String × PyVal)) :
    DictStore × Nat :=
  ({ dicts := st.dicts ++ [d] }, st.dicts.length)

/-- Read a dict object by reference. -/
def dictRead (st : DictStore) (r : Nat) : List (String × PyVal) :=
  (st.dicts[r]?).getD []

/-- A Filter (session.py:12-47): the bound table name and a reference to
its kwargs dict.  (The bound session plays no part in the builder claims.) -/
structure FilterObj where
  table : String
  kwargsRef : Nat

/-- Filter.__init__ as called by Session.scan / Session.query
(session.py:184-194): a fresh Filter with `kwargs or` an empty dict, so a
fresh scan allocates a new empty kwargs dict. -/
def sessionScanFilter (st : DictStore) (table_name : String) :
    DictStore × FilterObj :=
  let (st1, r) := dictAlloc st []
  (st1, { table := table_name, kwargsRef := r })

/-- Filter.limit (session.py:33-39): copy the kwargs dict, set Limit on the
copy, and build a new Filter over the copy; the receiver's dict is not
touched. -/
def filterLimit (st : DictStore) (f : FilterObj) (value : PyVal) :
    DictStore × FilterObj :=
  let copied := dictRead st f.kwargsRef
  let (st1, r) := dictAlloc st (assocSet copied "Limit" value)
  (st1, { table := f.table, kwargsRef := r })

/-- Filter.consistent (session.py:41-47): copy the kwargs dict, set
ConsistentRead on the copy, and build a new Filter over the copy. -/
def filterConsistent (st : DictStore) (f : FilterObj) (value : PyVal) :
    DictStore × FilterObj :=
  let copied := dictRead st f.kwargsRef
  let (st1, r) := dictAlloc st (assocSet copied "ConsistentRead" value)
  (st1, { table := f.table, kwargsRef := r })

/-- A stateless transport whose describe verb returns a fixed response, for
probing Session.describe_table. -/
def constClient (f : String → TransportResult TableDesc) : Client Unit :=
  { state := (),
    describeTableRaw := fun st n => (st, f n),
    createTableRaw := fun st _ => (st, .clientError "unused"),
    putItemRaw := fun st _ _ => (st, .ok ()),
    deleteItemRaw := fun st _ _ => (st, .ok ()),
    scanRaw := fun st _ _ => (st, .ok ([], 0)) }

/-- C1: describe_table maps the resource-not-found condition to
TableNotFound and returns the Table member on success, but a ClientError
with any other code (here ThrottlingException) is NOT re-raised: the except
block has no else: raise, so the error is swallowed and the function
returns normally with None.  This contradicts the claim that describe_table
never returns normally when the transport raised a non-not-found error. -/
theorem c1_describe_table_swallows_transport_error :
    (sessionDescribeTable
      ⟨some (constClient (fun _ => .clientError "ThrottlingException"))⟩
      "T").2 = .ok Option.none
    ∧ (sessionDescribeTable
      ⟨some (constClient (fun _ => .clientError "ResourceNotFoundException"))⟩
      "T").2 = .error PyErr.tableNotFound
    ∧ ∀ d : TableDesc,
      (sessionDescribeTable ⟨some (constClient (fun _ => .ok d))⟩ "T").2
        = .ok (some d) := by
  refine ⟨rfl, rfl, fun d => rfl⟩

/-- C3: ListAttribute.clean_value passes each element to the record-level
utils.clean instead of the containing attribute's clean; a plain element
has no attribute registry, so utils.clean raises NotATable at the first
element and the whole call is a hard failure — no per-index ValidationError
mapping is ever produced.  In particular cleaning the list
["a", 5, "c"] of a List-of-String attribute raises NotATable, not a
ValidationFailure keyed by index 1. -/
theorem c3_list_clean_value_hard_failure :
    (∀ (e : AttrKind) (x : PyVal) (xs : List PyVal),
      kindCleanValue (AttrKind.listA e) (PyVal.list (x :: xs))
        = .error PyErr.notATable)
    ∧ kindCleanValue (AttrKind.listA AttrKind.stringA)
        (PyVal.list [PyVal.str "a", PyVal.int 5, PyVal.str "c"])
        = .error PyErr.notATable := by
  exact ⟨fun e x xs => rfl, rfl⟩

/-- C10: reading an attribute from an instance whose field was never
assigned never raises: the KeyError from the instance __dict__ is caught,
a configured default factory is invoked and its product returned, and with
no factory configured the read returns None.  A plain default d is turned
into a factory returning d by Attribute.__init__'s default resolution. -/
theorem c10_unassigned_read_defaults (a : Attr) (obj : RecordObj)
    (d : PyVal) (f : Unit → PyVal)
    (h : assocLookup obj.fields a.attr_name = Option.none) :
    (a.default_factory = Option.none → attrGet a obj = PyVal.none)
    ∧ (a.default_factory = some f → attrGet a obj = f ())
    ∧ resolveDefault (some d) Option.none = .ok (some (fun _ => d))
    ∧ (a.default_factory = some (fun _ => d) → attrGet a obj = d) := by
  refine ⟨?_, ?_, rfl, ?_⟩
  · intro hdf
    rw [attrGet, h, hdf]
  · intro hdf
    rw [attrGet, h, hdf]
  · intro hdf
    rw [attrGet, h, hdf]

/-- Witness for C10 at a concrete attribute: a string attribute with a
plain default 7 (resolved to a factory) read off an empty instance. -/
theorem c10_unassigned_read_defaults_witness :
    attrGet
      { name := "f", attr_name := "f", kind := AttrKind.stringA,
        default_factory := some (fun _ => PyVal.int 7) }
      ⟨[], []⟩ = PyVal.int 7 :=
  (c10_unassigned_read_defaults _ ⟨[], []⟩ (PyVal.int 7)
    (fun _ => PyVal.int 7) rfl).2.2.2 rfl

theorem registerAttrs_error_of_claimed (k : KeyType) :
    ∀ (decls : List (String × AttrCfg)) (cls : TableCls),
    (cls.table_keys.map Prod.fst).contains k = true →
    0 < decls.countP (fun dc => dc.2.key_type == some k) →
    registerAttrs cls decls = .error PyErr.multipleKeys := by
  intro decls
  induction decls with
  | nil =>
      intro cls hclaim hcount
      simp [List.countP_nil] at hcount
  | cons dc rest ih =>
      intro cls hclaim hcount
      obtain ⟨fname, cfg⟩ := dc
      rw [registerAttrs]
      rw [setName]
      cases hkt : cfg.key_type with
      | none =>
          simp only []
          refine ih _ ?_ ?_
          · exact hclaim
          · rw [List.countP_cons] at hcount
            simp only [hkt] at hcount
            simpa using hcount
      | some k2 =>
          simp only []
          by_cases hk2 : k2 = k
          · subst hk2
            rw [if_pos (by simpa using hclaim)]
          · by_cases hcont :
              (cls.table_keys.map Prod.fst).contains k2 = true
            · rw [if_pos hcont]
            · rw [if_neg hcont]
              refine ih _ ?_ ?_
              · show ((cls.table_keys ++ [(k2, _)]).map Prod.fst).contains k
                  = true
                have hmem : k ∈ cls.table_keys.map Prod.fst := by
                  simpa using hclaim
                simp [hmem]
              · rw [List.countP_cons] at hcount
                have : (cfg.key_type == some k) = false := by
                  rw [hkt]
                  simp [hk2]
                simp only [this] at hcount
                simpa using hcount

theorem registerAttrs_error_of_two (k : KeyType) :
    ∀ (decls : List (String × AttrCfg)) (cls : TableCls),
    2 ≤ decls.countP (fun dc => dc.2.key_type == some k) →
    registerAttrs cls decls = .error PyErr.multipleKeys := by
  intro decls
  induction decls with
  | nil =>
      intro cls hcount
      simp [List.countP_nil] at hcount
  | cons dc rest ih =>
      intro cls hcount
      obtain ⟨fname, cfg⟩ := dc
      rw [registerAttrs]
      rw [setName]
      cases hkt : cfg.key_type with
      | none =>
          simp only []
          refine ih _ ?_
          rw [List.countP_cons] at hcount
          simp only [hkt] at hcount
          simpa using hcount
      | some k2 =>
          simp only []
          by_cases hk2 : k2 = k
          · subst hk2
            by_cases hcont : (cls.table_keys.map Prod.fst).contains k2 = true
            · rw [if_pos hcont]
            · rw [if_neg hcont]
              refine registerAttrs_error_of_claimed k2 rest _ ?_ ?_
              · show ((cls.table_keys ++ [(k2, _)]).map Prod.fst).contains k2
                  = true
                simp
              · rw [List.countP_cons] at hcount
                simp [hkt] at hcount
                obtain ⟨a, b, hmem, hb⟩ := hcount
                rw [List.countP_pos_iff]
                exact ⟨(a, b), hmem, by simp [hb]⟩
          · by_cases hcont : (cls.table_keys.map Prod.fst).contains k2 = true
            · rw [if_pos hcont]
            · rw [if_neg hcont]
              refine ih _ ?_
              rw [List.countP_cons] at hcount
              have : (cfg.key_type == some k) = false := by
                rw [hkt]
                simp [hk2]
              simp only [this] at hcount
              simpa using hcount

/-- C9: at most one attribute may claim each key role.  If the declared
fields of a record type contain two attributes with the same key role (for
example two Hash-role attributes), defining the type raises MultipleKeys
during the registration pass itself — i.e. at class-definition time, which
runs before any record instance can be constructed. -/
theorem c9_duplicate_key_role_rejected (class_name : String)
    (name : Option String) (decls : List (String × AttrCfg)) (k : KeyType)
    (h : 2 ≤ decls.countP (fun dc => dc.2.key_type == some k)) :
    defineTable class_name name decls = .error PyErr.multipleKeys :=
  registerAttrs_error_of_two k decls _ h

/-- Witness for C9: a concrete type with two Hash-role attributes is
rejected with MultipleKeys. -/
theorem c9_duplicate_key_role_rejected_witness :
    defineTable "Record" Option.none
      [("id", { key_type := some KeyType.hash, kind := AttrKind.stringA }),
       ("other", { key_type := some KeyType.hash, kind := AttrKind.integerA })]
      = .error PyErr.multipleKeys :=
  c9_duplicate_key_role_rejected "Record" Option.none _ KeyType.hash
    (by decide)

theorem dictRead_alloc_frame (st : DictStore) (d : List (String × PyVal))
    (r : Nat) (hr : r < st.dicts.length) :
    dictRead (dictAlloc st d).1 r = dictRead st r := by
  show ((st.dicts ++ [d])[r]?).getD [] = (st.dicts[r]?).getD []
  rw [List.getElem?_append_left hr]

theorem dictRead_alloc_new (st : DictStore) (d : List (String × PyVal)) :
    dictRead (dictAlloc st d).1 (dictAlloc st d).2 = d := by
  show ((st.dicts ++ [d])[st.dicts.length]?).getD [] = d
  rw [List.getElem?_concat_length]
  rfl

/-- C8: Filter.limit and Filter.consistent build a new Filter over a copy
of the kwargs dict extended with the Limit resp. ConsistentRead argument;
the receiver's own kwargs dict object is left unchanged.  Applied to a
fresh scan, .limit(10).consistent(True) yields exactly the argument set
Limit = 10, ConsistentRead = True while the fresh filter's own argument
dict remains empty. -/
theorem c8_filter_builders_immutable :
    (∀ (st : DictStore) (f : FilterObj) (v : PyVal),
      f.kwargsRef < st.dicts.length →
      dictRead (filterLimit st f v).1 f.kwargsRef = dictRead st f.kwargsRef
      ∧ dictRead (filterLimit st f v).1 (filterLimit st f v).2.kwargsRef
          = assocSet (dictRead st f.kwargsRef) "Limit" v)
    ∧ (∀ (st : DictStore) (f : FilterObj) (v : PyVal),
      f.kwargsRef < st.dicts.length →
      dictRead (filterConsistent st f v).1 f.kwargsRef
          = dictRead st f.kwargsRef
      ∧ dictRead (filterConsistent st f v).1
            (filterConsistent st f v).2.kwargsRef
          = assocSet (dictRead st f.kwargsRef) "ConsistentRead" v)
    ∧ (let s0 := sessionScanFilter ⟨[]⟩ "T"
       let s1 := filterLimit s0.1 s0.2 (PyVal.int 10)
       let s2 := filterConsistent s1.1 s1.2 (PyVal.bool true)
       dictRead s2.1 s2.2.kwargsRef
          = [("Limit", PyVal.int 10), ("ConsistentRead", PyVal.bool true)]
       ∧ dictRead s2.1 s0.2.kwargsRef = []) := by
  refine ⟨?_, ?_, ⟨rfl, rfl⟩⟩
  · intro st f v hr
    exact ⟨dictRead_alloc_frame st _ f.kwargsRef hr, dictRead_alloc_new st _⟩
  · intro st f v hr
    exact ⟨dictRead_alloc_frame st _ f.kwargsRef hr, dictRead_alloc_new st _⟩

/-- Witness for C8 at a concrete store: the dict of a one-filter store is
unchanged by limit and the produced filter carries the Limit argument. -/
theorem c8_filter_builders_immutable_witness :
    dictRead (filterLimit ⟨[[]]⟩ ⟨"T", 0⟩ (PyVal.int 10)).1 0 = []
    ∧ dictRead (filterLimit ⟨[[]]⟩ ⟨"T", 0⟩ (PyVal.int 10)).1
        (filterLimit ⟨[[]]⟩ ⟨"T", 0⟩ (PyVal.int 10)).2.kwargsRef
        = [("Limit", PyVal.int 10)] :=
  c8_filter_builders_immutable.1 ⟨[[]]⟩ ⟨"T", 0⟩ (PyVal.int 10)
    (by decide)

/-- C2 counterexample: the claimed round trip fails for the Binary kind at
the valid value b"\x01".  to_dynamo hex-encodes the bytes, but
BinaryAttribute defines no clean_value and inherits the base stub that
returns None, so from_dynamo(to_dynamo(b"\x01")) is None, not b"\x01". -/
theorem c2_round_trip_fails_for_binary :
    fromDynamo AttrKind.binaryA (toDynamo AttrKind.binaryA (PyVal.bytes [1]))
      = .ok PyVal.none
    ∧ fromDynamo AttrKind.binaryA (toDynamo AttrKind.binaryA (PyVal.bytes [1]))
      ≠ .ok (PyVal.bytes [1]) := by
  constructor
  · rfl
  · intro h
    have h2 : PyVal.none = PyVal.bytes [1] := Except.ok.inj h
    exact PyVal.noConfusion h2

/-- C2 (amended): from_dynamo(to_dynamo(None)) is None for every modelled
attribute kind, and from_dynamo(to_dynamo(v)) == v for every valid v of the
String, Integer and Boolean kinds; but the round trip fails for the Binary
kind (prepare hex-encodes while the inherited clean_value stub returns
None), for the set kinds (clean_value rejects the list that prepare
produced), and for the List kind (from_dynamo discards the cleaned
elements and returns None). -/
theorem c2_round_trip_amended :
    (∀ k : AttrKind, fromDynamo k (toDynamo k PyVal.none) = .ok PyVal.none)
    ∧ (∀ s : String,
        fromDynamo AttrKind.stringA (toDynamo AttrKind.stringA (PyVal.str s))
          = .ok (PyVal.str s))
    ∧ (∀ n : Int,
        fromDynamo AttrKind.integerA (toDynamo AttrKind.integerA (PyVal.int n))
          = .ok (PyVal.int n))
    ∧ (∀ b : Bool,
        fromDynamo AttrKind.booleanA (toDynamo AttrKind.booleanA (PyVal.bool b))
          = .ok (PyVal.bool b))
    ∧ fromDynamo AttrKind.binaryA (toDynamo AttrKind.binaryA (PyVal.bytes [1]))
        = .ok PyVal.none
    ∧ fromDynamo AttrKind.stringSetA
        (toDynamo AttrKind.stringSetA (PyVal.set [PyVal.str "a"]))
        = .error (.validationError (.flat ["Not a set"]))
    ∧ (fromDynamo (AttrKind.listA AttrKind.stringA)
        (toDynamo (AttrKind.listA AttrKind.stringA) (PyVal.list []))
        = .ok PyVal.none
      ∧ kindCleanValue (AttrKind.listA AttrKind.stringA) (PyVal.list [])
        = .ok (PyVal.list [])) := by
  refine ⟨?_, fun s => rfl, ?_, fun b => rfl, rfl, rfl, rfl, rfl⟩
  · intro k
    cases k <;> rfl
  · intro n
    have h1 : fromDynamo AttrKind.integerA
        (toDynamo AttrKind.integerA (PyVal.int n))
        = kindCleanValue AttrKind.integerA (PyVal.str (intToStr n)) := rfl
    rw [h1]
    simp only [kindCleanValue, pyIntOfStr_intToStr]

/-- C5 counterexample: the claim fails for ListAttribute.  On the wire item
with tag L present (value: empty list) and no NULL tag, from_dynamo does
not return the raw tagged value passed through clean_value (which would be
the empty list): the override iterates clean_value over the elements,
discards the results and returns None. -/
theorem c5_from_dynamo_list_override_deviates :
    ((([("L", PyVal.list [])] : List (String × PyVal)).map Prod.fst).contains
        "NULL" = false)
    ∧ assocLookup [("L", PyVal.list [])] "L" = some (PyVal.list [])
    ∧ fromDynamo (AttrKind.listA AttrKind.stringA) [("L", PyVal.list [])]
        = .ok PyVal.none
    ∧ kindCleanValue (AttrKind.listA AttrKind.stringA) (PyVal.list [])
        = .ok (PyVal.list [])
    ∧ fromDynamo (AttrKind.listA AttrKind.stringA) [("L", PyVal.list [])]
        ≠ kindCleanValue (AttrKind.listA AttrKind.stringA) (PyVal.list []) := by
  refine ⟨rfl, rfl, rfl, rfl, ?_⟩
  intro h
  have h2 : PyVal.none = PyVal.list [] := Except.ok.inj h
  exact PyVal.noConfusion h2

/-- C5 (amended): for every attribute, from_dynamo returns None when the
item carries the NULL tag, and raises the missing-tag signal (the bare
RuntimeWarning that realises the spec's MalformedWireValue) when the
attribute's kind tag is absent; for every attribute except ListAttribute it
otherwise returns the raw tagged value passed through clean_value, while
ListAttribute's override runs clean_value over the elements but discards
the results and returns None. -/
theorem c5_from_dynamo_amended :
    (∀ (k : AttrKind) (item : List (String × PyVal)),
      (item.map Prod.fst).contains "NULL" = true →
      fromDynamo k item = .ok PyVal.none)
    ∧ (∀ (k : AttrKind) (item : List (String × PyVal)),
      (item.map Prod.fst).contains "NULL" = false →
      assocLookup item (tag k) = Option.none →
      fromDynamo k item = .error PyErr.runtimeWarning)
    ∧ (∀ (k : AttrKind) (item : List (String × PyVal)) (v : PyVal),
      (∀ e : AttrKind, k ≠ AttrKind.listA e) →
      (item.map Prod.fst).contains "NULL" = false →
      assocLookup item (tag k) = some v →
      fromDynamo k item = kindCleanValue k v)
    ∧ (fromDynamo (AttrKind.listA AttrKind.stringA) [("L", PyVal.list [])]
        = .ok PyVal.none
      ∧ kindCleanValue (AttrKind.listA AttrKind.stringA) (PyVal.list [])
        = .ok (PyVal.list [])) := by
  refine ⟨?_, ?_, ?_, rfl, rfl⟩
  · intro k item hnull
    cases k <;> (simp only [fromDynamo]; rw [if_pos hnull])
  · intro k item hnull hmiss
    cases k <;>
      (simp only [fromDynamo, tag] at hmiss ⊢;
       rw [if_neg (by rw [hnull]; simp), hmiss])
  · intro k item v hk hnull hsome
    cases k with
    | listA e => exact absurd rfl (hk e)
    | stringA =>
        simp only [fromDynamo, tag] at hsome ⊢
        rw [if_neg (by rw [hnull]; simp), hsome]
    | binaryA =>
        simp only [fromDynamo, tag] at hsome ⊢
        rw [if_neg (by rw [hnull]; simp), hsome]
    | integerA =>
        simp only [fromDynamo, tag] at hsome ⊢
        rw [if_neg (by rw [hnull]; simp), hsome]
    | booleanA =>
        simp only [fromDynamo, tag] at hsome ⊢
        rw [if_neg (by rw [hnull]; simp), hsome]
    | stringSetA =>
        simp only [fromDynamo, tag] at hsome ⊢
        rw [if_neg (by rw [hnull]; simp), hsome]
    | binarySetA =>
        simp only [fromDynamo, tag] at hsome ⊢
        rw [if_neg (by rw [hnull]; simp), hsome]
    | integerSetA =>
        simp only [fromDynamo, tag] at hsome ⊢
        rw [if_neg (by rw [hnull]; simp), hsome]

/-- Witness for C5 at concrete inputs: a NULL item reads as None, a tagless
item raises the missing-tag signal, and a tagged String item passes its raw
value through clean_value. -/
theorem c5_from_dynamo_amended_witness :
    fromDynamo AttrKind.stringA [("NULL", PyVal.bool true)] = .ok PyVal.none
    ∧ fromDynamo AttrKind.stringA [("BOOL", PyVal.bool true)]
        = .error PyErr.runtimeWarning
    ∧ fromDynamo AttrKind.stringA [("S", PyVal.str "x")]
        = kindCleanValue AttrKind.stringA (PyVal.str "x") :=
  ⟨c5_from_dynamo_amended.1 AttrKind.stringA _ rfl,
   c5_from_dynamo_amended.2.1 AttrKind.stringA _ rfl rfl,
   c5_from_dynamo_amended.2.2.1 AttrKind.stringA _ (PyVal.str "x")
     (fun _ h => AttrKind.noConfusion h) rfl rfl⟩

theorem attrGet_attrSet_ne (a b : Attr) (obj : RecordObj) (v : PyVal)
    (h : a.attr_name ≠ b.attr_name) :
    attrGet b (attrSet a obj v) = attrGet b obj := by
  unfold attrSet
  by_cases hc :
      pyEq ((assocLookup obj.fields a.attr_name).getD PyVal.none) v = true
  · rw [if_pos hc]
  · rw [if_neg hc]
    unfold attrGet
    dsimp only
    rw [assocLookup_assocSet_ne obj.fields a.attr_name b.attr_name v h]

theorem recordErrors_congr : ∀ (attrs : List Attr) (obj obj2 : RecordObj),
    (∀ b ∈ attrs, attrGet b obj2 = attrGet b obj) →
    recordErrors attrs obj2 = recordErrors attrs obj := by
  intro attrs
  induction attrs with
  | nil => intro obj obj2 _; rfl
  | cons a rest ih =>
      intro obj obj2 h
      unfold recordErrors
      rw [List.filterMap_cons, List.filterMap_cons]
      rw [h a (by simp)]
      have htail := ih obj obj2 (fun b hb => h b (by simp [hb]))
      unfold recordErrors at htail
      rw [htail]

theorem cleanRecordLoop_spec : ∀ (attrs : List Attr) (obj : RecordObj)
    (acc : List (String × ErrMessages)),
    attrs.Pairwise (fun x y => x.attr_name ≠ y.attr_name) →
    (∀ a ∈ attrs, softOutcome (attrClean a (attrGet a obj)) = true) →
    ∃ obj2, cleanRecordLoop attrs obj acc
      = .ok (obj2, acc ++ recordErrors attrs obj) := by
  intro attrs
  induction attrs with
  | nil =>
      intro obj acc _ _
      exact ⟨obj, by simp [cleanRecordLoop, recordErrors]⟩
  | cons a rest ih =>
      intro obj acc hpw hsoft
      rw [List.pairwise_cons] at hpw
      obtain ⟨hne, hpw2⟩ := hpw
      cases hcl : attrClean a (attrGet a obj) with
      | ok v =>
          have hread : ∀ b ∈ rest,
              attrGet b (attrSet a obj v) = attrGet b obj :=
            fun b hb => attrGet_attrSet_ne a b obj v (hne b hb)
          have hsoft2 : ∀ b ∈ rest,
              softOutcome (attrClean b (attrGet b (attrSet a obj v)))
                = true := by
            intro b hb
            rw [hread b hb]
            exact hsoft b (by simp [hb])
          obtain ⟨obj2, h2⟩ := ih (attrSet a obj v) acc hpw2 hsoft2
          refine ⟨obj2, ?_⟩
          have hre : recordErrors (a :: rest) obj = recordErrors rest obj := by
            unfold recordErrors
            rw [List.filterMap_cons, hcl]
          simp only [cleanRecordLoop, hcl]
          rw [h2, hre, recordErrors_congr rest obj (attrSet a obj v) hread]
      | error e =>
          have hs := hsoft a (by simp)
          rw [hcl] at hs
          cases e
          case validationError m =>
            obtain ⟨obj2, h2⟩ := ih obj (acc ++ [(a.attr_name, m)]) hpw2
              (fun b hb => hsoft b (by simp [hb]))
            refine ⟨obj2, ?_⟩
            have hre : recordErrors (a :: rest) obj
                = (a.attr_name, m) :: recordErrors rest obj := by
              unfold recordErrors
              rw [List.filterMap_cons, hcl]
            simp only [cleanRecordLoop, hcl]
            rw [h2, hre]
            simp
          all_goals simp [softOutcome] at hs

/-- C6: utils.clean processes every attribute even when earlier attributes
fail: each attribute whose clean raises a ValidationError has its messages
recorded under its binding name, and after the whole pass exactly one
aggregate ValidationError carrying that mapping (one entry per failing
attribute, in declaration order) is raised if any field failed; if no field
failed, no error is raised.  The hypotheses state that binding names are
distinct (guaranteed by class creation) and that the per-attribute failures
are validation failures (the failures the claim is about). -/
theorem c6_clean_record_aggregates (attrs : List Attr) (obj : RecordObj)
    (hpw : attrs.Pairwise (fun x y => x.attr_name ≠ y.attr_name))
    (hsoft : ∀ a ∈ attrs, softOutcome (attrClean a (attrGet a obj)) = true) :
    (recordErrors attrs obj = [] → ∃ obj2, cleanRecord attrs obj = .ok obj2)
    ∧ (recordErrors attrs obj ≠ [] →
        cleanRecord attrs obj
          = .error (.validationError (.byName (recordErrors attrs obj)))) := by
  obtain ⟨obj2, h2⟩ := cleanRecordLoop_spec attrs obj [] hpw hsoft
  rw [List.nil_append] at h2
  constructor
  · intro hnil
    refine ⟨obj2, ?_⟩
    unfold cleanRecord
    rw [h2, hnil]
  · intro hne
    unfold cleanRecord
    cases hre : recordErrors attrs obj with
    | nil => exact absurd hre hne
    | cons p rest =>
        rw [hre] at h2
        rw [h2]

/-- Witness for C6: a record with two invalid fields (a non-numeric string
for an integer attribute and a missing value for a non-nullable string
attribute) produces one aggregate ValidationError whose mapping has exactly
two entries, one per failing field. -/
theorem c6_clean_record_aggregates_witness :
    cleanRecord
      [{ name := "f1", attr_name := "f1", kind := AttrKind.integerA },
       { name := "f2", attr_name := "f2", kind := AttrKind.stringA }]
      ⟨[("f1", PyVal.str "xx")], []⟩
      = .error (.validationError (.byName
          [("f1", .flat ["Invalid integer"]),
           ("f2", .flat ["A value is required."])])) := by
  have h := (c6_clean_record_aggregates
      [{ name := "f1", attr_name := "f1", kind := AttrKind.integerA },
       { name := "f2", attr_name := "f2", kind := AttrKind.stringA }]
      ⟨[("f1", PyVal.str "xx")], []⟩
      (by
        refine List.Pairwise.cons ?_ (List.Pairwise.cons ?_ List.Pairwise.nil)
        · intro b hb
          rw [List.mem_singleton] at hb
          subst hb
          simp
        · intro b hb
          exact absurd hb (List.not_mem_nil b))
      (by
        intro a ha
        rw [List.mem_cons, List.mem_singleton] at ha
        rcases ha with rfl | rfl
        · rfl
        · rfl)).2
    (by
      intro hnil
      exact List.noConfusion hnil)
  exact h

theorem contains_eq_false_of_assocLookup_none {α : Type}
    (l : List (String × α)) (k : String)
    (h : assocLookup l k = Option.none) :
    (l.map Prod.fst).contains k = false := by
  induction l with
  | nil => rfl
  | cons p rest ih =>
      obtain ⟨k0, v0⟩ := p
      simp only [assocLookup] at h
      by_cases hk : k0 = k
      · rw [if_pos hk] at h
        exact Option.noConfusion h
      · rw [if_neg hk] at h
        simp only [List.map_cons, List.contains_cons]
        rw [ih h]
        simp
        exact fun h2 => absurd h2.symm hk

theorem sessionCreateTable_remote (rm : Remote) (tbl : TableCls)
    (prov : Option (Int × Int)) :
    sessionCreateTable (⟨some (remoteClient rm)⟩ : Session Remote)
        tbl prov true
      = match assocLookup rm.tables tbl.table_name with
        | some d => (⟨some (remoteClient rm)⟩, .ok (some d))
        | Option.none =>
            (⟨some (remoteClient
                { tables :=
                    rm.tables ++ [(tbl.table_name, buildCreateArgs tbl prov)],
                  createCount := rm.createCount + 1 })⟩,
             .ok (some (buildCreateArgs tbl prov))) := by
  cases h : assocLookup rm.tables tbl.table_name with
  | some d =>
      simp [sessionCreateTable, sessionDescribeTable, remoteClient,
        remoteDescribe, h]
  | none =>
      have hc := contains_eq_false_of_assocLookup_none rm.tables
        tbl.table_name h
      have hcr : remoteCreate rm (buildCreateArgs tbl prov)
          = ({ tables :=
                 rm.tables ++ [(tbl.table_name, buildCreateArgs tbl prov)],
               createCount := rm.createCount + 1 },
             .ok (buildCreateArgs tbl prov)) := by
        unfold remoteCreate
        rw [show (buildCreateArgs tbl prov).tableName = tbl.table_name
          from rfl, hc]
        simp
      simp [sessionCreateTable, sessionDescribeTable, remoteClient,
        remoteDescribe, h, hcr]

/-- C7: calling create_table twice with check_exists = true issues at most
one underlying create request (the remote's create counter rises by at most
one across both calls) and both calls return a table description: the first
returns the existing or newly created description, the second returns the
existing description found by the describe-first probe. -/
theorem c7_create_table_idempotent (rm : Remote) (tbl : TableCls)
    (prov : Option (Int × Int)) :
    sessionCreateCount
        (sessionCreateTable
          (sessionCreateTable (⟨some (remoteClient rm)⟩ : Session Remote)
            tbl prov true).1 tbl prov true).1
      ≤ rm.createCount + 1
    ∧ (∃ d, (sessionCreateTable (⟨some (remoteClient rm)⟩ : Session Remote)
        tbl prov true).2 = .ok (some d))
    ∧ (∃ d, (sessionCreateTable
        (sessionCreateTable (⟨some (remoteClient rm)⟩ : Session Remote)
          tbl prov true).1 tbl prov true).2 = .ok (some d)) := by
  have h1 := sessionCreateTable_remote rm tbl prov
  cases h : assocLookup rm.tables tbl.table_name with
  | some d =>
      rw [h] at h1
      rw [h1]
      refine ⟨?_, ⟨d, rfl⟩, ?_⟩
      · rw [h1]
        simp [sessionCreateCount, remoteClient]
      · rw [h1]
        exact ⟨d, rfl⟩
  | none =>
      rw [h] at h1
      rw [h1]
      have h2 := sessionCreateTable_remote
        { tables := rm.tables ++ [(tbl.table_name, buildCreateArgs tbl prov)],
          createCount := rm.createCount + 1 } tbl prov
      rw [show assocLookup
          (rm.tables ++ [(tbl.table_name, buildCreateArgs tbl prov)])
          tbl.table_name = some (buildCreateArgs tbl prov) from
        assocLookup_append_of_none rm.tables tbl.table_name _ h] at h2
      refine ⟨?_, ⟨buildCreateArgs tbl prov, rfl⟩, ?_⟩
      · rw [h2]
        simp [sessionCreateCount, remoteClient]
      · rw [h2]
        exact ⟨buildCreateArgs tbl prov, rfl⟩

/-- C4 counterexample: after close() the session's client is None and an
operation such as describe_table does fail — but with the Python
AttributeError from accessing an attribute of None, not with a SessionClosed
error: the source defines no SessionClosed exception and never raises
one. -/
theorem c4_closed_session_error_is_not_session_closed :
    (sessionDescribeTable (⟨Option.none⟩ : Session Unit) "T").2
      = .error PyErr.attributeError
    ∧ (sessionDescribeTable (⟨Option.none⟩ : Session Unit) "T").2
      ≠ .error PyErr.sessionClosed := by
  constructor
  · rfl
  · intro h
    have h2 : PyErr.attributeError = PyErr.sessionClosed := Except.error.inj h
    exact PyErr.noConfusion h2

/-- C4 (amended): after close() has released the client, every operation
that touches the transport (describe_table, create_table with either
check_exists value, put_item, delete_item, scan/query execution) fails —
with an AttributeError on the None client rather than a dedicated
SessionClosed error, which the code does not define; and close() on an
already-closed session is a no-op (close is idempotent). -/
theorem c4_closed_session_amended :
    (∀ (sigma : Type) (s : Session sigma) (name : String),
      s.client = Option.none →
      (sessionDescribeTable s name).2 = .error PyErr.attributeError)
    ∧ (∀ (sigma : Type) (s : Session sigma) (tbl : TableCls)
        (prov : Option (Int × Int)) (ce : Bool),
      s.client = Option.none →
      (sessionCreateTable s tbl prov ce).2 = .error PyErr.attributeError)
    ∧ (∀ (sigma : Type) (s : Session sigma) (tbl : TableCls)
        (obj : RecordObj),
      s.client = Option.none →
      (sessionPutItem s tbl obj false).2 = .error PyErr.attributeError)
    ∧ (∀ (sigma : Type) (s : Session sigma) (tbl : TableCls)
        (obj : RecordObj) (a : Attr),
      s.client = Option.none →
      assocLookup tbl.table_keys KeyType.hash = some a →
      (sessionDeleteItem s tbl obj).2 = .error PyErr.attributeError)
    ∧ (∀ (sigma : Type) (s : Session sigma) (name : String)
        (kwargs : List (String × PyVal)),
      s.client = Option.none →
      (scanExecute s name kwargs).2 = .error PyErr.attributeError)
    ∧ (∀ (sigma : Type) (s : Session sigma),
      sessionClose (sessionClose s) = sessionClose s)
    ∧ (∀ (sigma : Type) (s : Session sigma),
      s.client = Option.none → sessionClose s = s) := by
  refine ⟨?_, ?_, ?_, ?_, ?_, ?_, ?_⟩
  · intro sigma s name h
    simp [sessionDescribeTable, h]
  · intro sigma s tbl prov ce h
    cases ce <;> simp [sessionCreateTable, sessionDescribeTable, h]
  · intro sigma s tbl obj h
    simp [sessionPutItem, h]
  · intro sigma s tbl obj a h hkey
    simp [sessionDeleteItem, toDynamoKey, hkey, h]
  · intro sigma s name kwargs h
    simp [scanExecute, h]
  · intro sigma s
    cases hc : s.client <;> simp [sessionClose, hc]
  · intro sigma s h
    cases s
    simp at h
    rw [h]
    rfl

/-- Witness for C4 at a concrete closed session: describe_table and scan
execution fail with the AttributeError, and a re-close is a no-op. -/
theorem c4_closed_session_amended_witness :
    (sessionDescribeTable (⟨Option.none⟩ : Session Unit) "T").2
      = .error PyErr.attributeError
    ∧ (scanExecute (⟨Option.none⟩ : Session Unit) "T" []).2
      = .error PyErr.attributeError
    ∧ sessionClose (⟨Option.none⟩ : Session Unit) = ⟨Option.none⟩ :=
  ⟨c4_closed_session_amended.1 Unit ⟨Option.none⟩ "T" rfl,
   c4_closed_session_amended.2.2.2.2.1 Unit ⟨Option.none⟩ "T" [] rfl,
   c4_closed_session_amended.2.2.2.2.2.2 Unit ⟨Option.none⟩ rfl⟩
